import Mathlib

/-!
Verification of the overlay compositing and selection engine of the
nexus-photo-upload repository.

The development shallowly embeds the overlay subsystem:
* the overlay data model (`src/types/overlay`, appended to
  `src/pages/CapturePhoto.tsx`): `OverlayPosition`, `OverlayMode`,
  `OrientationSettings`, `OverlayItem`, `OverlayConfig`,
  `LegacyOverlayConfig`, `isLegacyOverlayConfig`, `migrateLegacyConfig`,
  `getDefaultOverlayConfig`, `getDefaultOrientationSettings`,
  `createEmptyOverlayItem`, `MAX_OVERLAYS`;
* the capture pipeline of `src/pages/CapturePhoto.tsx`:
  `detectOrientation`, `getAvailableOverlays`, `processImageForOverlay`,
  `navigateCarousel`, and the overlay-application step of `handleUpload`;
* the compositor `applyOverlay` of `src/utils/imageOverlay.ts`
  (`src/unnamed/part_000`), with its box-size and box-origin geometry;
* the admin mutations of `src/pages/Admin.tsx`: `addOverlayItem`,
  `removeOverlayItem`, `updateOverlayItem`, `updateOrientationSettings`,
  `copySettingsToLandscape`.

Real-number arithmetic of the source (JS numbers) is modelled over `ℚ`;
asynchronous image decoding and network fetching are modelled as explicit
`Option`-valued inputs; thrown JS exceptions are modelled with `Except`.
Fresh identifiers (`crypto.randomUUID()`) are passed as explicit parameters.
-/

namespace PhotoUpload

/-! ## Data model (src/types/overlay) -/

/-- Source `OverlayPosition`: the five placement anchors of the overlay box. -/
inductive OverlayPosition where
  | center
  | topLeft
  | topRight
  | bottomLeft
  | bottomRight
deriving DecidableEq, Repr

/-- Source `OverlayMode`: how an overlay is selected. -/
inductive OverlayMode where
  | random
  | user_choice
deriving DecidableEq, Repr

/-- Source `OrientationSettings`: per-orientation rendering settings. -/
structure OrientationSettings where
  enabled : Bool
  position : OverlayPosition
  opacity : ℚ
  scale : ℚ
deriving DecidableEq, Repr

/-- Source `OverlayItem`: one configured overlay with per-orientation assets. -/
structure OverlayItem where
  id : String
  name : String
  portraitUrl : String
  landscapeUrl : String
  portrait : OrientationSettings
  landscape : OrientationSettings
deriving DecidableEq, Repr

/-- Source `OverlayConfig`: the multi-overlay configuration. -/
structure OverlayConfig where
  enabled : Bool
  mode : OverlayMode
  overlays : List OverlayItem
deriving DecidableEq, Repr

/-- Source `LegacyOverlayConfig`: the single-overlay predecessor format. -/
structure LegacyOverlayConfig where
  enabled : Bool
  url : String
  position : OverlayPosition
  opacity : ℚ
  scale : ℚ
deriving DecidableEq, Repr

/-- Source `MAX_OVERLAYS = 5`: maximum number of overlays per upload link. -/
def MAX_OVERLAYS : ℕ := 5

/-- Photo orientation as classified by the capture page. -/
inductive Orientation where
  | portrait
  | landscape
deriving DecidableEq, Repr

/-- Source `overlay[orientation]`: the settings slot selected by the
detected orientation. -/
def OverlayItem.settingsFor (o : OverlayItem) : Orientation → OrientationSettings
  | .portrait => o.portrait
  | .landscape => o.landscape

/-- Source `orientation === 'portrait' ? overlay.portraitUrl : overlay.landscapeUrl`. -/
def OverlayItem.urlFor (o : OverlayItem) : Orientation → String
  | .portrait => o.portraitUrl
  | .landscape => o.landscapeUrl

/-- Source `getDefaultOrientationSettings()` of src/types/overlay. -/
def getDefaultOrientationSettings : OrientationSettings :=
  { enabled := true
    position := .bottomRight
    opacity := 8/10
    scale := 3/10 }

/-- Source `getDefaultOverlayConfig()` of src/types/overlay. -/
def getDefaultOverlayConfig : OverlayConfig :=
  { enabled := false
    mode := .random
    overlays := [] }

/-- Source `createEmptyOverlayItem()` of src/types/overlay; `crypto.randomUUID()`
is modelled as the explicit parameter `freshId`. -/
def createEmptyOverlayItem (freshId : String) : OverlayItem :=
  { id := freshId
    name := ""
    portraitUrl := ""
    landscapeUrl := ""
    portrait := getDefaultOrientationSettings
    landscape := getDefaultOrientationSettings }

/-! ## Orientation classifier (CapturePhoto.tsx, `detectOrientation`)

The source decodes the data URL into an `Image` and reads its pixel
dimensions; decoding is modelled as an `Option (ℕ × ℕ)` input
(`none` = the `img.onerror` path). -/

/-- Source `detectOrientation` of CapturePhoto.tsx: `img.height > img.width`
means portrait, otherwise landscape; on decode error resolve portrait. -/
def detectOrientation (decoded : Option (ℕ × ℕ)) : Orientation :=
  match decoded with
  | some (w, h) => if h > w then .portrait else .landscape
  | none => .portrait

/-! ## Eligibility resolver (CapturePhoto.tsx, `getAvailableOverlays`) -/

/-- Source `getAvailableOverlays` of CapturePhoto.tsx: keep overlays whose
orientation-specific settings are enabled and whose orientation-specific
image URL is truthy (non-empty). -/
def getAvailableOverlays (config : OverlayConfig) (orientation : Orientation) :
    List OverlayItem :=
  config.overlays.filter fun overlay =>
    (overlay.settingsFor orientation).enabled && overlay.urlFor orientation != ""

/-! ## Compositor geometry (imageOverlay.ts, `applyOverlay`) -/

/-- Decoded raster dimensions of an `HTMLImageElement`. -/
structure ImageAsset where
  width : ℚ
  height : ℚ
deriving DecidableEq, Repr

/-- The overlay render-box size computed inside `applyOverlay`
(imageOverlay.ts): at `scale ≥ 0.95` the box is the full base image;
below that, cover-mode scaling pinned to the dominant dimension. -/
def computeOverlayBox (baseW baseH overlayW overlayH scale : ℚ) : ℚ × ℚ :=
  if scale ≥ 19/20 then
    (baseW, baseH)
  else
    let imageAspect := baseW / baseH
    let overlayAspect := overlayW / overlayH
    if overlayAspect > imageAspect then
      let h := baseH * scale
      (h * overlayAspect, h)
    else
      let w := baseW * scale
      (w, w / overlayAspect)

/-- The overlay box origin computed inside `applyOverlay`
(imageOverlay.ts): the `switch (position)` block, no margin added. -/
def computeOverlayOrigin (position : OverlayPosition) (baseW baseH boxW boxH : ℚ) :
    ℚ × ℚ :=
  match position with
  | .center => ((baseW - boxW) / 2, (baseH - boxH) / 2)
  | .topLeft => (0, 0)
  | .topRight => (baseW - boxW, 0)
  | .bottomLeft => (0, baseH - boxH)
  | .bottomRight => (baseW - boxW, baseH - boxH)

/-! ## Compositor (imageOverlay.ts, `applyOverlay` and `loadImageFromUrl`)

Network asset loading is modelled by an environment
`env : String → Option ImageAsset`: `env url = none` is the
`img.onerror` path of `loadImageFromUrl` (network/CORS/missing asset),
which rejects the promise, i.e. raises an exception in the caller. -/

/-- Source `OverlayOptions` of imageOverlay.ts. -/
structure OverlayOptions where
  position : OverlayPosition
  opacity : ℚ
  scale : ℚ
deriving DecidableEq, Repr

/-- The composited JPEG blob produced by `applyOverlay`: a canvas the size
of the base image, the base drawn at (0,0) full size, and the overlay
asset drawn in the computed box with the given global alpha. -/
structure CompositedBlob where
  canvasW : ℚ
  canvasH : ℚ
  base : ImageAsset
  overlay : ImageAsset
  boxX : ℚ
  boxY : ℚ
  boxW : ℚ
  boxH : ℚ
  alpha : ℚ
deriving DecidableEq, Repr

/-- An image blob flowing through `handleUpload`: either raw captured
bytes (abstracted by an identifier) or the compositor's output. -/
inductive Blob where
  | raw (id : ℕ)
  | jpeg (c : CompositedBlob)
deriving DecidableEq, Repr

/-- Source `loadImageFromUrl` of imageOverlay.ts: resolves the decoded asset, or
rejects with `Failed to load overlay from url`. -/
def loadImageFromUrl (env : String → Option ImageAsset) (url : String) :
    Except String ImageAsset :=
  match env url with
  | some img => .ok img
  | none => .error ("Failed to load overlay from " ++ url)

/-- Source `applyOverlay` of imageOverlay.ts: load the overlay asset, compute the
render box and its origin, and produce the composited JPEG blob. A load
failure propagates as the thrown exception (`Except.error`). -/
def applyOverlay (baseImage : ImageAsset) (env : String → Option ImageAsset)
    (overlayUrl : String) (options : OverlayOptions) : Except String CompositedBlob :=
  match loadImageFromUrl env overlayUrl with
  | .error e => .error e
  | .ok overlayImage =>
    let box := computeOverlayBox baseImage.width baseImage.height
      overlayImage.width overlayImage.height options.scale
    let origin := computeOverlayOrigin options.position
      baseImage.width baseImage.height box.1 box.2
    .ok { canvasW := baseImage.width
          canvasH := baseImage.height
          base := baseImage
          overlay := overlayImage
          boxX := origin.1
          boxY := origin.2
          boxW := box.1
          boxH := box.2
          alpha := options.opacity }

/-! ## Capture-page overlay flow (CapturePhoto.tsx) -/

/-- The React state of CapturePhoto.tsx touched by the overlay flow. -/
structure CaptureState where
  imageOrientation : Orientation
  availableOverlays : List OverlayItem
  showOverlayCarousel : Bool
  selectedOverlayIndex : Option ℕ
deriving DecidableEq, Repr

/-- The overlay-selection state immediately after a capture, before
`processImageForOverlay` runs (`useState` initial values). -/
def initialCaptureState : CaptureState :=
  { imageOrientation := .portrait
    availableOverlays := []
    showOverlayCarousel := false
    selectedOverlayIndex := none }

/-- Source `processImageForOverlay` of CapturePhoto.tsx. `decoded` is the
dimension result of decoding the captured data URL (input of
`detectOrientation`); `randomIndex` is the value of
`Math.floor(Math.random() * available.length)` in random mode. -/
def processImageForOverlay (s : CaptureState) (config : Option OverlayConfig)
    (decoded : Option (ℕ × ℕ)) (randomIndex : ℕ) : CaptureState :=
  match config with
  | none => s
  | some cfg =>
    if !cfg.enabled || cfg.overlays.length == 0 then
      s
    else
      let orientation := detectOrientation decoded
      let available := getAvailableOverlays cfg orientation
      let s1 := { s with imageOrientation := orientation, availableOverlays := available }
      if available.length == 0 then
        s1
      else if cfg.mode == .random then
        { s1 with selectedOverlayIndex := some randomIndex }
      else
        { s1 with showOverlayCarousel := true, selectedOverlayIndex := some 0 }

/-- Carousel navigation direction. -/
inductive Direction where
  | left
  | right
deriving DecidableEq, Repr

/-- Source `navigateCarousel` of CapturePhoto.tsx: fold the `null` = "no overlay"
slot into index 0 of a cyclic space of size `numAvailable + 1`, step one
position, and unfold back. -/
def navigateCarousel (numAvailable : ℕ) (direction : Direction)
    (prev : Option ℕ) : Option ℕ :=
  let totalItems := numAvailable + 1
  let current := match prev with
    | none => 0
    | some i => i + 1
  let next := match direction with
    | .left => (current + totalItems - 1) % totalItems
    | .right => (current + 1) % totalItems
  if next == 0 then none else some (next - 1)

/-- The overlay-application step of `handleUpload` (CapturePhoto.tsx):
starting from `manipulatedBlob = originalBlob`, apply the selected
overlay when the config is enabled, an index is selected, the available
list is non-empty, the selected item exists, and its orientation URL and
settings gate pass; a thrown `applyOverlay` error is caught and the
original blob kept (`hasOverlay` stays false). Returns
`(manipulatedBlob, hasOverlay)`. -/
def handleUploadOverlayStep (originalBlob : Blob) (baseImage : ImageAsset)
    (config : Option OverlayConfig) (selectedOverlayIndex : Option ℕ)
    (availableOverlays : List OverlayItem) (imageOrientation : Orientation)
    (env : String → Option ImageAsset) : Blob × Bool :=
  match config with
  | none => (originalBlob, false)
  | some cfg =>
    if cfg.enabled then
      match selectedOverlayIndex with
      | none => (originalBlob, false)
      | some idx =>
        if 0 < availableOverlays.length then
          match availableOverlays[idx]? with
          | none => (originalBlob, false)
          | some selectedOverlay =>
            let settings := selectedOverlay.settingsFor imageOrientation
            let overlayUrl := selectedOverlay.urlFor imageOrientation
            if overlayUrl != "" && settings.enabled then
              match applyOverlay baseImage env overlayUrl
                  ⟨settings.position, settings.opacity, settings.scale⟩ with
              | .ok blob => (.jpeg blob, true)
              | .error _ => (originalBlob, false)
            else
              (originalBlob, false)
        else
          (originalBlob, false)
    else
      (originalBlob, false)

/-! ## Legacy detection and migration (src/types/overlay)

`isLegacyOverlayConfig` is a structural check on raw JSON, so raw JSON
values are modelled explicitly, together with the JSON shape of an
`OverlayConfig` as the rest of the program serializes it. -/

/-- A raw JSON value as handed to `isLegacyOverlayConfig`. -/
inductive JValue where
  | null
  | bool (b : Bool)
  | num (q : ℚ)
  | str (s : String)
  | arr (xs : List JValue)
  | obj (fields : List (String × JValue))

/-- JS `'k' in obj`. -/
def hasField (fields : List (String × JValue)) (k : String) : Bool :=
  fields.any fun p => p.1 == k

/-- JS `obj.k` (first binding wins). -/
def getField (fields : List (String × JValue)) (k : String) : Option JValue :=
  (fields.find? fun p => p.1 == k).map Prod.snd

/-- Source `isLegacyOverlayConfig` of src/types/overlay: a non-null object with a
string `url` field and no `overlays` field. -/
def isLegacyOverlayConfig (config : JValue) : Bool :=
  match config with
  | .obj fields =>
    (match getField fields "url" with
     | some (.str _) => true
     | _ => false)
    && !(hasField fields "overlays")
  | _ => false

/-- The JSON wire shape of an `OverlayPosition`. -/
def OverlayPosition.toJsonString : OverlayPosition → String
  | .center => "center"
  | .topLeft => "top-left"
  | .topRight => "top-right"
  | .bottomLeft => "bottom-left"
  | .bottomRight => "bottom-right"

/-- The JSON wire shape of an `OverlayMode`. -/
def OverlayMode.toJsonString : OverlayMode → String
  | .random => "random"
  | .user_choice => "user_choice"

/-- JSON serialization of `OrientationSettings`. -/
def OrientationSettings.toJson (s : OrientationSettings) : JValue :=
  .obj [("enabled", .bool s.enabled),
        ("position", .str s.position.toJsonString),
        ("opacity", .num s.opacity),
        ("scale", .num s.scale)]

/-- JSON serialization of `OverlayItem`. -/
def OverlayItem.toJson (o : OverlayItem) : JValue :=
  .obj [("id", .str o.id),
        ("name", .str o.name),
        ("portraitUrl", .str o.portraitUrl),
        ("landscapeUrl", .str o.landscapeUrl),
        ("portrait", o.portrait.toJson),
        ("landscape", o.landscape.toJson)]

/-- JSON serialization of `OverlayConfig`: the shape stored in
`upload_tokens.overlay_config` by the admin page. -/
def OverlayConfig.toJson (c : OverlayConfig) : JValue :=
  .obj [("enabled", .bool c.enabled),
        ("mode", .str c.mode.toJsonString),
        ("overlays", .arr (c.overlays.map OverlayItem.toJson))]

/-- Source `migrateLegacyConfig` of src/types/overlay; `crypto.randomUUID()` is
the explicit parameter `freshId`. -/
def migrateLegacyConfig (legacy : LegacyOverlayConfig) (freshId : String) :
    OverlayConfig :=
  let settings : OrientationSettings :=
    { enabled := true
      position := legacy.position
      opacity := legacy.opacity
      scale := legacy.scale }
  { enabled := legacy.enabled
    mode := .random
    overlays := [{ id := freshId
                   name := "Default Overlay"
                   portraitUrl := legacy.url
                   landscapeUrl := legacy.url
                   portrait := settings
                   landscape := settings }] }

/-! ## Admin mutations (src/pages/Admin.tsx)

Each mutation is the pure state transformer that the corresponding
`setOverlayConfig` call performs on the overlay configuration. -/

/-- Source `addOverlayItem` of Admin.tsx: at `MAX_OVERLAYS` or more the add is
rejected (the alert message is returned and the config left unchanged);
otherwise the fresh empty item is appended. -/
def addOverlayItem (c : OverlayConfig) (freshId : String) :
    OverlayConfig × Option String :=
  if MAX_OVERLAYS ≤ c.overlays.length then
    (c, some ("Maximum " ++ toString MAX_OVERLAYS ++ " overlays allowed"))
  else
    ({ c with overlays := c.overlays ++ [createEmptyOverlayItem freshId] }, none)

/-- Source `removeOverlayItem` of Admin.tsx: drop every overlay with this id. -/
def removeOverlayItem (c : OverlayConfig) (id : String) : OverlayConfig :=
  { c with overlays := c.overlays.filter fun o => o.id != id }

/-- Source `updateOverlayItem` of Admin.tsx: apply the partial update (modelled
as a function, the JS object spread) to every overlay with this id. -/
def updateOverlayItem (c : OverlayConfig) (id : String)
    (updates : OverlayItem → OverlayItem) : OverlayConfig :=
  { c with overlays := c.overlays.map fun o => if o.id == id then updates o else o }

/-- Source `updateOrientationSettings` of Admin.tsx: apply the partial settings
update to the given orientation slot of every overlay with this id. -/
def updateOrientationSettings (c : OverlayConfig) (overlayId : String)
    (orientation : Orientation)
    (settings : OrientationSettings → OrientationSettings) : OverlayConfig :=
  { c with overlays := c.overlays.map fun o =>
      if o.id == overlayId then
        match orientation with
        | .portrait => { o with portrait := settings o.portrait }
        | .landscape => { o with landscape := settings o.landscape }
      else o }

/-- Source `copySettingsToLandscape` of Admin.tsx (the `setOverlayConfig` part):
find the overlay, and if present copy its portrait settings and portrait
URL into its landscape slots via `updateOverlayItem`. -/
def copySettingsToLandscape (c : OverlayConfig) (overlayId : String) :
    OverlayConfig :=
  match c.overlays.find? (fun o => o.id == overlayId) with
  | none => c
  | some overlay =>
    updateOverlayItem c overlayId fun o =>
      { o with landscape := overlay.portrait, landscapeUrl := overlay.portraitUrl }

/-! ## Selection validity and the carousel index space -/

/-- A selection is valid when it is `none` ("no overlay") or an index into
the available-overlay list. -/
def validSelection (numAvailable : ℕ) : Option ℕ → Prop
  | none => True
  | some i => i < numAvailable

/-- The conceptual cyclic index of a selection: `null` is slot 0, overlay
`i` is slot `i + 1` (the `current` conversion inside `navigateCarousel`). -/
def carouselIdx : Option ℕ → ℕ
  | none => 0
  | some i => i + 1

/-! ## Demonstration inputs for the witnesses -/

/-- A concrete overlay item, fully populated for portrait. -/
def demoItemA : OverlayItem :=
  { id := "a"
    name := "Logo A"
    portraitUrl := "pa"
    landscapeUrl := "la"
    portrait := { enabled := true, position := .center, opacity := 1, scale := 1/2 }
    landscape := { enabled := false, position := .topLeft, opacity := 1/2, scale := 1/4 } }

/-- A second concrete overlay item with a distinct id. -/
def demoItemB : OverlayItem :=
  { id := "b"
    name := "Logo B"
    portraitUrl := "pb"
    landscapeUrl := ""
    portrait := { enabled := true, position := .bottomRight, opacity := 8/10, scale := 3/10 }
    landscape := { enabled := true, position := .bottomRight, opacity := 8/10, scale := 3/10 } }

/-- A concrete enabled two-item configuration. -/
def demoConfig : OverlayConfig :=
  { enabled := true, mode := .user_choice, overlays := [demoItemA, demoItemB] }

/-- A concrete disabled configuration that still carries a portrait-ready
item. -/
def demoDisabledConfig : OverlayConfig :=
  { enabled := false, mode := .random, overlays := [demoItemA] }

/-! ## Claim theorems -/

/-- C1, counterexample: the standalone eligibility filter
`getAvailableOverlays` does not consult `config.enabled`; on a disabled
config holding one portrait-enabled, portrait-populated item it returns a
non-empty list, refuting "the eligibility computation yields an empty set
regardless of the contents of C.overlays". -/
theorem getAvailableOverlays_disabled_cex :
    getAvailableOverlays demoDisabledConfig .portrait ≠ [] := by
  decide

/-- C1 (amended): for every config with `enabled = false`,
`processImageForOverlay` returns without touching the capture state, so
no overlay flow is triggered and the effective available-overlay set
stays empty; the `config.enabled` gate lives here and not inside
`getAvailableOverlays`. -/
theorem processImageForOverlay_disabled (s : CaptureState) (cfg : OverlayConfig)
    (decoded : Option (ℕ × ℕ)) (randomIndex : ℕ) (h : cfg.enabled = false) :
    processImageForOverlay s (some cfg) decoded randomIndex = s := by
  simp [processImageForOverlay, h]

/-- C1 witness: the amended theorem evaluated on the concrete disabled
config. -/
theorem processImageForOverlay_disabled_witness :
    processImageForOverlay initialCaptureState (some demoDisabledConfig)
      (some (2, 3)) 0 = initialCaptureState :=
  processImageForOverlay_disabled initialCaptureState demoDisabledConfig
    (some (2, 3)) 0 rfl

/-- C4: the compositor's box origin is centered for `center`, `(0,0)` for
`top-left`, `(W − boxW, 0)` for `top-right`, `(0, H − boxH)` for
`bottom-left` and `(W − boxW, H − boxH)` for `bottom-right`; in
particular for `bottom-right` the origin satisfies
`originX + boxW = W` and `originY + boxH = H` exactly, with no margin or
padding in any case. -/
theorem computeOverlayOrigin_placement (W H boxW boxH : ℚ) :
    computeOverlayOrigin .center W H boxW boxH = ((W - boxW) / 2, (H - boxH) / 2) ∧
    computeOverlayOrigin .topLeft W H boxW boxH = (0, 0) ∧
    computeOverlayOrigin .topRight W H boxW boxH = (W - boxW, 0) ∧
    computeOverlayOrigin .bottomLeft W H boxW boxH = (0, H - boxH) ∧
    computeOverlayOrigin .bottomRight W H boxW boxH = (W - boxW, H - boxH) ∧
    (computeOverlayOrigin .bottomRight W H boxW boxH).1 + boxW = W ∧
    (computeOverlayOrigin .bottomRight W H boxW boxH).2 + boxH = H := by
  refine ⟨rfl, rfl, rfl, rfl, rfl, ?_, ?_⟩ <;>
    simp [computeOverlayOrigin]

/-- C6: for every valid legacy configuration and every freshly generated
id, the migrated configuration is never detected as legacy again: its
JSON shape carries an `overlays` field, which `isLegacyOverlayConfig`
rejects. -/
theorem migrateLegacy_not_legacy (L : LegacyOverlayConfig) (freshId : String) :
    isLegacyOverlayConfig ((migrateLegacyConfig L freshId).toJson) = false := by
  rfl

/-- C7: orientation classification returns portrait when the decoded
height exceeds the width and landscape otherwise (square is landscape,
the explicit tie-break); a decode failure defaults to portrait instead of
failing the capture flow. -/
theorem detectOrientation_classify (w h : ℕ) :
    (h > w → detectOrientation (some (w, h)) = .portrait) ∧
    (w > h → detectOrientation (some (w, h)) = .landscape) ∧
    (w = h → detectOrientation (some (w, h)) = .landscape) ∧
    detectOrientation none = .portrait := by
  refine ⟨?_, ?_, ?_, rfl⟩ <;> intro hw <;> simp [detectOrientation] <;> omega

/-- C7 witness: the classification evaluated on 2×3, 3×2 and 3×3 decodes
and on a failed decode. -/
theorem detectOrientation_classify_witness :
    detectOrientation (some (2, 3)) = .portrait ∧
    detectOrientation (some (3, 2)) = .landscape ∧
    detectOrientation (some (3, 3)) = .landscape ∧
    detectOrientation none = .portrait :=
  ⟨(detectOrientation_classify 2 3).1 (by decide),
   (detectOrientation_classify 3 2).2.1 (by decide),
   (detectOrientation_classify 3 3).2.2.1 rfl,
   (detectOrientation_classify 0 0).2.2.2⟩

/-- C3: with positive dimensions and a positive scale, the overlay box is
exactly `(W, H)` when `scale ≥ 0.95`; below that threshold the box
preserves the overlay asset's native aspect ratio, with box height
`H · scale` when the overlay is proportionally wider than the base image
and box width `W · scale` otherwise. -/
theorem computeOverlayBox_scale_policy (W H ow oh scale : ℚ)
    (hW : 0 < W) (hH : 0 < H) (how : 0 < ow) (hoh : 0 < oh) (hs : 0 < scale) :
    (19/20 ≤ scale → computeOverlayBox W H ow oh scale = (W, H)) ∧
    (scale < 19/20 →
      (computeOverlayBox W H ow oh scale).1 / (computeOverlayBox W H ow oh scale).2
        = ow / oh ∧
      (W / H < ow / oh → (computeOverlayBox W H ow oh scale).2 = H * scale) ∧
      (ow / oh ≤ W / H → (computeOverlayBox W H ow oh scale).1 = W * scale)) := by
  constructor
  · intro hge
    simp [computeOverlayBox, hge]
  · intro hlt
    have hnot : ¬ (19/20 ≤ scale) := not_le.mpr hlt
    have hHs : H * scale ≠ 0 := ne_of_gt (mul_pos hH hs)
    have hWs : W * scale ≠ 0 := ne_of_gt (mul_pos hW hs)
    have hbox : computeOverlayBox W H ow oh scale
        = if W / H < ow / oh then (H * scale * (ow / oh), H * scale)
          else (W * scale, W * scale / (ow / oh)) := by
      simp only [computeOverlayBox, ge_iff_le]
      rw [if_neg hnot]
    rw [hbox]
    by_cases hcmp : W / H < ow / oh
    · rw [if_pos hcmp]
      refine ⟨?_, fun _ => rfl, fun hle => absurd hcmp (not_lt.mpr hle)⟩
      exact mul_div_cancel_left₀ _ hHs
    · rw [if_neg hcmp]
      refine ⟨?_, fun hlt2 => absurd hlt2 hcmp, fun _ => rfl⟩
      exact div_div_cancel₀ hWs

/-- C3 witness: a 4×3 base image with a 2×1 overlay; at scale 19/20 the
box is the full image, at scale 1/2 the box keeps the 2:1 overlay
ratio with height pinned to `3 · 1/2`. -/
theorem computeOverlayBox_scale_policy_witness :
    computeOverlayBox 4 3 2 1 (19/20) = (4, 3) ∧
    (computeOverlayBox 4 3 2 1 (1/2)).1 / (computeOverlayBox 4 3 2 1 (1/2)).2
      = 2 / 1 ∧
    (computeOverlayBox 4 3 2 1 (1/2)).2 = 3 * (1/2) :=
  ⟨(computeOverlayBox_scale_policy 4 3 2 1 (19/20) (by norm_num) (by norm_num)
      (by norm_num) (by norm_num) (by norm_num)).1 (by norm_num),
   ((computeOverlayBox_scale_policy 4 3 2 1 (1/2) (by norm_num) (by norm_num)
      (by norm_num) (by norm_num) (by norm_num)).2 (by norm_num)).1,
   (((computeOverlayBox_scale_policy 4 3 2 1 (1/2) (by norm_num) (by norm_num)
      (by norm_num) (by norm_num) (by norm_num)).2 (by norm_num)).2).1 (by norm_num)⟩

/-- When the environment has no asset for the url, `applyOverlay`
propagates the load failure as an error. -/
lemma applyOverlay_env_none (baseImage : ImageAsset) (env : String → Option ImageAsset)
    (url : String) (options : OverlayOptions) (h : env url = none) :
    applyOverlay baseImage env url options
      = .error ("Failed to load overlay from " ++ url) := by
  simp [applyOverlay, loadImageFromUrl, h]

/-- C2: when every overlay asset fetch fails (`env` returns `none` for
all urls), the overlay step of `handleUpload` catches the compositor's
exception and returns the original blob unchanged with `hasOverlay`
false: the upload proceeds as if no overlay were chosen and no exception
escapes the step. -/
theorem handleUpload_overlay_failure_fallback (originalBlob : Blob)
    (baseImage : ImageAsset) (config : Option OverlayConfig)
    (selectedOverlayIndex : Option ℕ) (availableOverlays : List OverlayItem)
    (imageOrientation : Orientation) (env : String → Option ImageAsset)
    (henv : ∀ url, env url = none) :
    handleUploadOverlayStep originalBlob baseImage config selectedOverlayIndex
      availableOverlays imageOrientation env = (originalBlob, false) := by
  cases config with
  | none => rfl
  | some cfg =>
    cases selectedOverlayIndex with
    | none => simp [handleUploadOverlayStep]
    | some idx =>
      cases hget : availableOverlays[idx]? with
      | none => simp [handleUploadOverlayStep, hget]
      | some selectedOverlay =>
        simp [handleUploadOverlayStep, hget,
          applyOverlay_env_none _ _ _ _ (henv (selectedOverlay.urlFor imageOrientation))]

/-- C2 witness: the fallback evaluated with a selected overlay and an
environment in which every fetch fails. -/
theorem handleUpload_overlay_failure_fallback_witness :
    handleUploadOverlayStep (.raw 0) ⟨4, 3⟩ (some demoConfig) (some 0)
      [demoItemA, demoItemB] .portrait (fun _ => none) = (.raw 0, false) :=
  handleUpload_overlay_failure_fallback (.raw 0) ⟨4, 3⟩ (some demoConfig) (some 0)
    [demoItemA, demoItemB] .portrait (fun _ => none) (fun _ => rfl)

/-- Folding the "no overlay" slot back out of the cyclic index space
(`next === 0 ? null : next - 1` in the source) inverts `carouselIdx`. -/
lemma carouselIdx_unfold (m : ℕ) :
    carouselIdx (if m == 0 then none else some (m - 1)) = m := by
  by_cases h : m = 0 <;> simp [carouselIdx, h] <;> omega

/-- Source `carouselIdx` is injective. -/
lemma carouselIdx_inj {s t : Option ℕ} (h : carouselIdx s = carouselIdx t) :
    s = t := by
  cases s <;> cases t <;> simp_all [carouselIdx]

/-- One carousel step acts on the conceptual cyclic index by ±1 modulo
`numAvailable + 1`. -/
lemma carouselIdx_navigate (numAvailable : ℕ) (direction : Direction)
    (s : Option ℕ) :
    carouselIdx (navigateCarousel numAvailable direction s) =
      match direction with
      | .left => (carouselIdx s + (numAvailable + 1) - 1) % (numAvailable + 1)
      | .right => (carouselIdx s + 1) % (numAvailable + 1) := by
  cases direction <;> cases s <;>
    · simp only [navigateCarousel]
      rw [carouselIdx_unfold]
      rfl

/-- A selection is valid exactly when its conceptual index lies in the
cyclic space of size `numAvailable + 1`. -/
lemma validSelection_iff (numAvailable : ℕ) (s : Option ℕ) :
    validSelection numAvailable s ↔ carouselIdx s < numAvailable + 1 := by
  cases s <;> simp [validSelection, carouselIdx]

/-- Every carousel step lands on a valid selection, whatever the input. -/
lemma navigateCarousel_valid (numAvailable : ℕ) (direction : Direction)
    (s : Option ℕ) :
    validSelection numAvailable (navigateCarousel numAvailable direction s) := by
  rw [validSelection_iff, carouselIdx_navigate]
  cases direction <;> exact Nat.mod_lt _ (Nat.succ_pos _)

/-- Iterating `k + 1` right steps advances the conceptual index by
`k + 1` modulo `numAvailable + 1`. -/
lemma carouselIdx_iterate_right (numAvailable k : ℕ) (s : Option ℕ) :
    carouselIdx ((navigateCarousel numAvailable .right)^[k + 1] s) =
      (carouselIdx s + (k + 1)) % (numAvailable + 1) := by
  induction k generalizing s with
  | zero =>
    rw [Function.iterate_one]
    exact carouselIdx_navigate numAvailable .right s
  | succ k ih =>
    rw [Function.iterate_succ_apply, ih, carouselIdx_navigate]
    rw [Nat.mod_add_mod]
    congr 1
    omega

/-- C5: carousel navigation wraps modulo `N = |eligible| + 1` with the
"no overlay" slot an ordinary cyclic member: from any valid selection,
`N` consecutive right navigations return to the starting selection. -/
theorem navigateCarousel_right_cycle (availableOverlays : List OverlayItem)
    (s : Option ℕ) (h : validSelection availableOverlays.length s) :
    (navigateCarousel availableOverlays.length .right)^[availableOverlays.length + 1]
      s = s := by
  apply carouselIdx_inj
  rw [carouselIdx_iterate_right]
  rw [Nat.add_mod_right]
  exact Nat.mod_eq_of_lt ((validSelection_iff _ _).mp h)

/-- C5 witness: three right steps over a two-overlay eligible set return
to the starting selection (the second overlay). -/
theorem navigateCarousel_right_cycle_witness :
    validSelection [demoItemA, demoItemB].length (some 1) ∧
    (navigateCarousel [demoItemA, demoItemB].length .right)^[[demoItemA, demoItemB].length + 1]
      (some 1) = some 1 :=
  ⟨by simp [validSelection],
   navigateCarousel_right_cycle [demoItemA, demoItemB] (some 1) (by simp [validSelection])⟩

/-- C10: starting from a valid selection ("no overlay" or an index into
the available list), any sequence of left/right carousel navigations
yields a valid selection again; consequently the index used by
`handleUpload` to address the available-overlay list is never out of
bounds. -/
theorem carousel_selection_in_bounds (availableOverlays : List OverlayItem)
    (dirs : List Direction) (s : Option ℕ)
    (h : validSelection availableOverlays.length s) :
    validSelection availableOverlays.length
      (dirs.foldl (fun sel d => navigateCarousel availableOverlays.length d sel) s) ∧
    ∀ i, dirs.foldl (fun sel d => navigateCarousel availableOverlays.length d sel) s
        = some i → (availableOverlays[i]?).isSome := by
  have hvalid : ∀ (ds : List Direction) (t : Option ℕ),
      validSelection availableOverlays.length t →
      validSelection availableOverlays.length
        (ds.foldl (fun sel d => navigateCarousel availableOverlays.length d sel) t) := by
    intro ds
    induction ds with
    | nil => intro t ht; exact ht
    | cons d ds ih =>
      intro t _
      exact ih _ (navigateCarousel_valid availableOverlays.length d t)
  refine ⟨hvalid dirs s h, ?_⟩
  intro i hi
  have hv := hvalid dirs s h
  rw [hi] at hv
  rw [List.getElem?_eq_getElem hv]
  rfl

/-- C10 witness: navigating right, left, right from "no overlay" over the
two-overlay set lands on a valid selection addressing an existing item. -/
theorem carousel_selection_in_bounds_witness :
    validSelection [demoItemA, demoItemB].length none ∧
    validSelection [demoItemA, demoItemB].length
      ([Direction.right, Direction.left, Direction.right].foldl
        (fun sel d => navigateCarousel [demoItemA, demoItemB].length d sel) none) :=
  ⟨trivial,
   (carousel_selection_in_bounds [demoItemA, demoItemB]
     [Direction.right, Direction.left, Direction.right] none trivial).1⟩

/-! ## List lemmas for keyed updates -/

/-- Updating by a key that no element carries is the identity. -/
lemma map_update_of_key_not_mem {α β : Type} [DecidableEq β] (key : α → β)
    (f : α → α) (l : List α) (k : β) (h : ∀ a ∈ l, key a ≠ k) :
    l.map (fun a => if key a == k then f a else a) = l := by
  induction l with
  | nil => rfl
  | cons a t ih =>
    have ha : (key a == k) = false :=
      beq_eq_false_iff_ne.mpr (h a (List.mem_cons_self a t))
    simp only [List.map_cons, ha, Bool.false_eq_true, if_false]
    rw [ih fun b hb => h b (List.mem_cons_of_mem a hb)]

/-- With pairwise-distinct keys, `find?` by key returns exactly the
element at the position carrying that key. -/
lemma find_first_key {α β : Type} [DecidableEq β] (key : α → β) (l : List α)
    (k : β) (hnodup : (l.map key).Nodup) (i : ℕ) (hi : i < l.length)
    (hk : key (l.get ⟨i, hi⟩) = k) :
    l.find? (fun a => key a == k) = some (l.get ⟨i, hi⟩) := by
  induction l generalizing i with
  | nil => exact absurd hi (Nat.not_lt_zero i)
  | cons a t ih =>
    rw [List.map_cons, List.nodup_cons] at hnodup
    cases i with
    | zero =>
      simp only [List.get] at hk ⊢
      simp only [List.find?, beq_iff_eq.mpr hk]
    | succ j =>
      have hj : j < t.length := Nat.lt_of_succ_lt_succ hi
      have hget : (a :: t).get ⟨j + 1, hi⟩ = t.get ⟨j, hj⟩ := rfl
      rw [hget] at hk ⊢
      have hmem : k ∈ t.map key := hk ▸ List.mem_map_of_mem key (t.get_mem _ _)
      have hne : (key a == k) = false :=
        beq_eq_false_iff_ne.mpr fun he => hnodup.1 (he.symm ▸ hmem)
      simp only [List.find?, hne]
      exact ih hnodup.2 j hj hk

/-- With pairwise-distinct keys, updating by the key carried at position
`i` rewrites exactly position `i` and nothing else. -/
lemma map_update_of_key_nodup {α β : Type} [DecidableEq β] (key : α → β)
    (f : α → α) (l : List α) (k : β) (hnodup : (l.map key).Nodup) (i : ℕ)
    (hi : i < l.length) (hk : key (l.get ⟨i, hi⟩) = k) :
    l.map (fun a => if key a == k then f a else a) = l.set i (f (l.get ⟨i, hi⟩)) := by
  induction l generalizing i with
  | nil => exact absurd hi (Nat.not_lt_zero i)
  | cons a t ih =>
    rw [List.map_cons, List.nodup_cons] at hnodup
    cases i with
    | zero =>
      simp only [List.get] at hk ⊢
      simp only [List.map_cons, beq_iff_eq.mpr hk, if_true, List.set]
      rw [map_update_of_key_not_mem key f t k]
      intro b hb he
      refine hnodup.1 ?_
      rw [hk, ← he]
      exact List.mem_map_of_mem key hb
    | succ j =>
      have hj : j < t.length := Nat.lt_of_succ_lt_succ hi
      have hget : (a :: t).get ⟨j + 1, hi⟩ = t.get ⟨j, hj⟩ := rfl
      rw [hget] at hk ⊢
      have hmem : k ∈ t.map key := hk ▸ List.mem_map_of_mem key (t.get_mem _ _)
      have hne : (key a == k) = false :=
        beq_eq_false_iff_ne.mpr fun he => hnodup.1 (he.symm ▸ hmem)
      simp only [List.map_cons, hne, Bool.false_eq_true, if_false, List.set]
      rw [ih hnodup.2 j hj hk]

/-- C8: every authoring mutation preserves the max-5 bound on the overlay
sequence, and adding to a sequence already holding `MAX_OVERLAYS` items
is rejected with the capacity alert and leaves the configuration
unchanged rather than truncating. -/
theorem mutations_preserve_max_overlays (c : OverlayConfig)
    (freshId id overlayId : String) (orientation : Orientation)
    (updates : OverlayItem → OverlayItem)
    (settings : OrientationSettings → OrientationSettings)
    (h : c.overlays.length ≤ MAX_OVERLAYS) :
    (addOverlayItem c freshId).1.overlays.length ≤ MAX_OVERLAYS ∧
    (c.overlays.length = MAX_OVERLAYS →
      addOverlayItem c freshId
        = (c, some ("Maximum " ++ toString MAX_OVERLAYS ++ " overlays allowed"))) ∧
    (removeOverlayItem c id).overlays.length ≤ MAX_OVERLAYS ∧
    (updateOverlayItem c id updates).overlays.length ≤ MAX_OVERLAYS ∧
    (updateOrientationSettings c overlayId orientation settings).overlays.length
      ≤ MAX_OVERLAYS ∧
    (copySettingsToLandscape c overlayId).overlays.length ≤ MAX_OVERLAYS := by
  refine ⟨?_, ?_, ?_, ?_, ?_, ?_⟩
  · by_cases hc : MAX_OVERLAYS ≤ c.overlays.length
    · simpa [addOverlayItem, hc] using h
    · simp only [addOverlayItem, hc, if_false]
      simp only [List.length_append, List.length_cons, List.length_nil]
      omega
  · intro h5
    simp [addOverlayItem, h5]
  · exact le_trans (List.length_filter_le _ _) h
  · simpa [updateOverlayItem] using h
  · simpa [updateOrientationSettings] using h
  · unfold copySettingsToLandscape
    cases c.overlays.find? (fun o => o.id == overlayId) with
    | none => exact h
    | some overlay => simpa [updateOverlayItem] using h

/-- A concrete configuration at the five-item capacity. -/
def demoFullConfig : OverlayConfig :=
  { enabled := true
    mode := .random
    overlays := [createEmptyOverlayItem "1", createEmptyOverlayItem "2",
                 createEmptyOverlayItem "3", createEmptyOverlayItem "4",
                 createEmptyOverlayItem "5"] }

/-- C8 witness: at capacity, the invariant holds and the add is rejected
with the configuration unchanged. -/
theorem mutations_preserve_max_overlays_witness :
    demoFullConfig.overlays.length ≤ MAX_OVERLAYS ∧
    (addOverlayItem demoFullConfig "6").1.overlays.length ≤ MAX_OVERLAYS ∧
    addOverlayItem demoFullConfig "6"
      = (demoFullConfig,
         some ("Maximum " ++ toString MAX_OVERLAYS ++ " overlays allowed")) :=
  ⟨by decide,
   (mutations_preserve_max_overlays demoFullConfig "6" "1" "1" .portrait
     (fun o => o) (fun s => s) (by decide)).1,
   (mutations_preserve_max_overlays demoFullConfig "6" "1" "1" .portrait
     (fun o => o) (fun s => s) (by decide)).2.1 (by decide)⟩

/-- C9: with pairwise-distinct overlay ids, copy-portrait-to-landscape on
an id present at position `i` replaces exactly that item's landscape
settings by its portrait settings and its landscapeUrl by its
portraitUrl, keeping the item's id, name, portraitUrl and portrait
settings and every other item (and the order) unchanged; on an absent id
the configuration is unchanged. -/
theorem copySettingsToLandscape_frame (c : OverlayConfig) (overlayId : String)
    (hnodup : (c.overlays.map OverlayItem.id).Nodup) :
    (∀ i (hi : i < c.overlays.length),
      (c.overlays.get ⟨i, hi⟩).id = overlayId →
      copySettingsToLandscape c overlayId =
        { c with overlays := c.overlays.set i { c.overlays.get ⟨i, hi⟩ with landscape := (c.overlays.get ⟨i, hi⟩).portrait, landscapeUrl := (c.overlays.get ⟨i, hi⟩).portraitUrl } }) ∧
    ((∀ o ∈ c.overlays, o.id ≠ overlayId) → copySettingsToLandscape c overlayId = c) := by
  constructor
  · intro i hi hid
    unfold copySettingsToLandscape
    rw [find_first_key OverlayItem.id c.overlays overlayId hnodup i hi hid]
    show updateOverlayItem c overlayId _ = _
    unfold updateOverlayItem
    congr 1
    exact map_update_of_key_nodup OverlayItem.id _ c.overlays overlayId hnodup i hi hid
  · intro habs
    unfold copySettingsToLandscape
    rw [List.find?_eq_none.mpr fun o ho => by simp [habs o ho]]

/-- C9 witness: on the two-item demo config, copying id "b" rewrites only
the second item's landscape slots. -/
theorem copySettingsToLandscape_frame_witness :
    (demoConfig.overlays.map OverlayItem.id).Nodup ∧
    copySettingsToLandscape demoConfig "b"
      = { demoConfig with overlays :=
            [demoItemA,
             { demoItemB with landscape := demoItemB.portrait
                              landscapeUrl := demoItemB.portraitUrl }] } := by
  refine ⟨by decide, ?_⟩
  have h := (copySettingsToLandscape_frame demoConfig "b" (by decide)).1 1
    (by decide) (by decide)
  rw [h]
  rfl

end PhotoUpload
